import Mathlib

/-!
Shallow embedding of `pymargo` (files `src/pymargo/core.py` and
`src/pymargo/logging.py`): the RPC engine context of py-mochi-margo.

The Python layer in `core.py` delegates every transport operation to the
`_pymargo` C++ extension module, whose source is not part of the Python
package here.  The Python classes (`Address`, `Engine`, `Provider`) and the
module-level helper `__Handler_get_Address` are translated directly from
`core.py`; the `_pymargo` primitives they call are modelled from the spec
(each such definition says so in its doc comment).
-/

namespace Pymargo

/-- A transport-level network endpoint, the thing an `hg_addr_t` handle
refers to.  `remote s` is the endpoint a string address `s` resolves to;
`selfAddr mid` is the engine's own listening endpoint. -/
inductive Endpoint where
  | remote (straddr : String)
  | selfAddr (mid : Nat)
deriving Repr, DecidableEq

/-- Modelled from the spec: an `hg_addr_t` endpoint reference.  Distinct
references (`refId`) may point at the same `endpoint`; equality of
addresses is "structural equivalence of the underlying endpoint, not
pointer identity". -/
structure HgAddr where
  endpoint : Endpoint
  refId : Nat
deriving Repr, DecidableEq

/-- Modelled from the spec: a bulk region handle (`src/pymargo/bulk.py` and
the C++ side are not in the package; only the handle identity matters to
the Python layer modelled here). -/
structure HgBulk where
  regionId : Nat
deriving Repr, DecidableEq

/-- Bulk access modes (`bulk.read_only`, `bulk.write_only`,
`bulk.read_write`). -/
inductive BulkMode where
  | read_only
  | write_only
  | read_write
deriving Repr, DecidableEq

/-- Bulk transfer directions (`bulk.push`, `bulk.pull`). -/
inductive BulkOp where
  | push
  | pull
deriving Repr, DecidableEq

/-- Errors surfaced by the embedded operations.

* `runtimeError msg` is Python's builtin `RuntimeError`, the exception the
  pure-Python layer raises in `Engine.register`.
* `lifecycleError` is modelled from the spec: the error with which any
  non-destructive operation on a finalized engine fails
  ("After `finalize()`, any subsequent non-destructive Engine operation
  fails with `LifecycleError`").
* `configurationError` is the spec's `ConfigurationError` taxonomy entry
  ("ambiguous or invalid registration arguments"); it is declared so that
  statements can compare the code's behaviour against it, the code never
  produces it. -/
inductive PyError where
  | runtimeError (msg : String)
  | lifecycleError
  | configurationError
deriving Repr, DecidableEq

/-- Modelled from the spec: the state of the transport session behind one
`margo_instance_id` (the C++ `_pymargo` side).

* `nextRef` — source of fresh `HgAddr.refId`s;
* `freedRefs` — the reference ids released so far via `addr_free`;
* `registry` — the spec's `rpcRegistry`: "mapping from (name, providerId)
  to an internal RPC identifier";
* `handlers` — the server-side handler table: rpc id bound to an object
  identity and a method name;
* `nextRpcId` — source of fresh RPC identifiers;
* `nextBulk` — source of fresh bulk region handles;
* `finalizeCallbacks` — identities of callbacks pushed by `on_finalize`;
* `sessionFinalized` — whether the session has been finalized;
* `sessionReleased` — whether the session's resources were released;
* `warnings` — number of warning-level diagnostics emitted. -/
structure TransportState where
  nextRef : Nat
  freedRefs : List Nat
  registry : List ((String × Nat) × Nat)
  handlers : List (Nat × Nat × String)
  nextRpcId : Nat
  nextBulk : Nat
  finalizeCallbacks : List Nat
  sessionFinalized : Bool
  sessionReleased : Bool
  warnings : Nat
deriving Repr, DecidableEq

/-- The transport state of a freshly initialized session. -/
def initState : TransportState :=
  { nextRef := 0, freedRefs := [], registry := [], handlers := [],
    nextRpcId := 0, nextBulk := 0, finalizeCallbacks := [],
    sessionFinalized := false, sessionReleased := false, warnings := 0 }

/-- Registry lookup: the RPC id registered under `(name, pid)`, if any. -/
def lookupReg : List ((String × Nat) × Nat) → String → Nat → Option Nat
  | [], _, _ => none
  | ((n, p), i) :: rest, name, pid =>
    if n = name ∧ p = pid then some i else lookupReg rest name pid

/-- Modelled from the spec: assignment of RPC identifiers by the transport.
"An RPC identifier is uniquely determined by (name, providerId)": if the
pair is already registered its id is returned, otherwise a fresh id is
recorded for it. -/
def registerId (s : TransportState) (name : String) (pid : Nat) :
    Nat × TransportState :=
  match lookupReg s.registry name pid with
  | some i => (i, s)
  | none =>
    (s.nextRpcId,
      { s with registry := ((name, pid), s.nextRpcId) :: s.registry,
               nextRpcId := s.nextRpcId + 1 })

/-- Modelled from the spec: `_pymargo.addr_dup` "duplicates the underlying
endpoint reference": a new reference (fresh `refId`) to the same endpoint. -/
def addr_dup (mid : Nat) (s : TransportState) (a : HgAddr) :
    HgAddr × TransportState :=
  (⟨a.endpoint, s.nextRef⟩, { s with nextRef := s.nextRef + 1 })

/-- Modelled from the spec: `_pymargo.addr_cmp` — "structural comparison
delegated to the transport": two references are equal iff they refer to the
same endpoint. -/
def addr_cmp (mid : Nat) (a b : HgAddr) : Bool :=
  a.endpoint == b.endpoint

/-- Modelled from the spec: `_pymargo.addr_free` releases one endpoint
reference. -/
def addr_free (mid : Nat) (a : HgAddr) (s : TransportState) : TransportState :=
  { s with freedRefs := a.refId :: s.freedRefs }

/-- Modelled from the spec: `_pymargo.finalize`.  "Finalize failures must
still guarantee release of the session, surfaced as a warning-level
diagnostic rather than re-raised": whether or not the transport-level step
fails (`fails`), the session ends finalized and released, a failure only
adds a warning diagnostic, and no error is raised (the function is total). -/
def pymargo_finalize (mid : Nat) (s : TransportState) (fails : Bool) :
    TransportState :=
  { s with sessionFinalized := true, sessionReleased := true,
           warnings := s.warnings + (if fails then 1 else 0) }

/-- Modelled from the spec: `_pymargo.wait_for_finalize` blocks until
another actor finalizes the engine; on return the session is finalized. -/
def pymargo_wait_for_finalize (mid : Nat) (s : TransportState) :
    TransportState :=
  { s with sessionFinalized := true, sessionReleased := true }

/-- Modelled from the spec: `_pymargo.lookup` resolves a string address to
a fresh owned endpoint reference; on a finalized session it fails with the
lifecycle error ("no operation on a finalized Engine other than destruction
is valid"). -/
def pymargo_lookup (mid : Nat) (s : TransportState) (straddr : String) :
    Except PyError (HgAddr × TransportState) :=
  if s.sessionFinalized then .error .lifecycleError
  else .ok (⟨.remote straddr, s.nextRef⟩, { s with nextRef := s.nextRef + 1 })

/-- Modelled from the spec: `_pymargo.addr_self` returns a fresh owned
reference to the engine's own endpoint; lifecycle-gated like `lookup`. -/
def addr_self (mid : Nat) (s : TransportState) :
    Except PyError (HgAddr × TransportState) :=
  if s.sessionFinalized then .error .lifecycleError
  else .ok (⟨.selfAddr mid, s.nextRef⟩, { s with nextRef := s.nextRef + 1 })

/-- Modelled from the spec: `_pymargo.register_on_client` registers a
client-side-only RPC id — an id is assigned for `(name, pid)` but no local
handler is recorded.  Lifecycle-gated. -/
def register_on_client (mid : Nat) (s : TransportState) (name : String)
    (pid : Nat) : Except PyError (Nat × TransportState) :=
  if s.sessionFinalized then .error .lifecycleError
  else .ok (registerId s name pid)

/-- Modelled from the spec: `_pymargo.register` registers a server-side
handler: an id is assigned for `(name, pid)` and the `(objId, methodName)`
pair is recorded as its handler.  Lifecycle-gated. -/
def pymargo_register (mid : Nat) (s : TransportState) (name : String)
    (pid : Nat) (objId : Nat) (methodName : String) :
    Except PyError (Nat × TransportState) :=
  if s.sessionFinalized then .error .lifecycleError
  else
    let (i, s') := registerId s name pid
    .ok (i, { s' with handlers := (i, objId, methodName) :: s'.handlers })

/-- Modelled from the spec: `_pymargo.registered` — lookup of a name in the
default (provider id 0) namespace, without registering.  Lifecycle-gated. -/
def pymargo_registered (mid : Nat) (s : TransportState) (name : String) :
    Except PyError (Option Nat) :=
  if s.sessionFinalized then .error .lifecycleError
  else .ok (lookupReg s.registry name 0)

/-- Modelled from the spec: `_pymargo.registered_provider` — lookup of
`(name, pid)` without registering.  Lifecycle-gated. -/
def registered_provider (mid : Nat) (s : TransportState) (name : String)
    (pid : Nat) : Except PyError (Option Nat) :=
  if s.sessionFinalized then .error .lifecycleError
  else .ok (lookupReg s.registry name pid)

/-- Modelled from the spec: `_pymargo.create` binds a client-side call
handle to `(destination, rpcId)`.  Lifecycle-gated. -/
def pymargo_create (mid : Nat) (s : TransportState) (dest : HgAddr)
    (rpcId : Nat) : Except PyError ((Nat × HgAddr × Nat) × TransportState) :=
  if s.sessionFinalized then .error .lifecycleError
  else .ok ((mid, dest, rpcId), s)

/-- Modelled from the spec: `_pymargo.bulk_create` registers a memory
buffer and returns a fresh region handle.  Lifecycle-gated. -/
def bulk_create (mid : Nat) (s : TransportState) (arraySize : Nat)
    (mode : BulkMode) : Except PyError (HgBulk × TransportState) :=
  if s.sessionFinalized then .error .lifecycleError
  else .ok (⟨s.nextBulk⟩, { s with nextBulk := s.nextBulk + 1 })

/-- Modelled from the spec: `_pymargo.bulk_transfer` moves bytes between
two registered regions; the data movement itself is the external
transport's work, the model keeps the lifecycle gate. -/
def bulk_transfer (mid : Nat) (s : TransportState) (op : BulkOp)
    (originAddr : HgAddr) (originBulk : HgBulk) (originOffset : Nat)
    (localBulk : HgBulk) (localOffset : Nat) (size : Nat) :
    Except PyError (Unit × TransportState) :=
  if s.sessionFinalized then .error .lifecycleError
  else .ok ((), s)

/-- Modelled from the spec: `_pymargo.push_finalize_callback` appends a
callback (identified by a number) to the finalize-callback list.
Lifecycle-gated. -/
def push_finalize_callback (mid : Nat) (s : TransportState) (cb : Nat) :
    Except PyError TransportState :=
  if s.sessionFinalized then .error .lifecycleError
  else .ok { s with finalizeCallbacks := s.finalizeCallbacks ++ [cb] }

/-- `pymargo.core.Address` (`core.py`, lines 28–85).  Fields are the
constructor's attributes `self._mid`, `self._hg_addr`, `self._need_del`
(the underscore is dropped); in the source `need_del` defaults to `True`. -/
structure Address where
  mid : Nat
  hg_addr : HgAddr
  need_del : Bool
deriving Repr, DecidableEq

/-- `Address.__del__`: `if self._need_del: _pymargo.addr_free(self._mid,
self._hg_addr)` — returns the transport state after the destructor runs. -/
def Address.del (a : Address) (s : TransportState) : TransportState :=
  if a.need_del then addr_free a.mid a.hg_addr s else s

/-- `Address.__eq__`: `_pymargo.addr_cmp(self._mid, self._hg_addr,
other._hg_addr)`. -/
def Address.eq (a other : Address) : Bool :=
  addr_cmp a.mid a.hg_addr other.hg_addr

/-- `Address.copy`: `Address(self._mid, _pymargo.addr_dup(self._mid,
self._hg_addr))` — the omitted `need_del` argument defaults to `True`. -/
def Address.copy (a : Address) (s : TransportState) :
    Address × TransportState :=
  let (dup, s') := addr_dup a.mid s a.hg_addr
  (⟨a.mid, dup, true⟩, s')

/-- `_pymargo.Handle`, as far as the Python layer in `core.py` reads it:
`h._get_mid()` and `h._get_hg_addr()` (the sender's address of an inbound
handle, a borrowed reference) and the rpc id it was created for. -/
structure Handle where
  mid : Nat
  hg_addr : HgAddr
  rpc_id : Nat
deriving Repr, DecidableEq

/-- `__Handler_get_Address` (`core.py`, lines 88–94), installed as
`Handle.get_addr`: builds a borrowed `Address` (`need_del=False`) around
the sender's `hg_addr` and returns a `copy()` of it. -/
def Handler_get_Address (h : Handle) (s : TransportState) :
    Address × TransportState :=
  let mid := h.mid
  let addr := h.hg_addr
  Address.copy ⟨mid, addr, false⟩ s

/-- `pymargo.core.Engine`, its Python-side attributes: `self._mid` and
`self._finalized`. -/
structure Engine where
  mid : Nat
  finalized : Bool
deriving Repr, DecidableEq

/-- The partially constructed engine object that exists if
`_pymargo.init` raises inside `Engine.__init__`: only
`self._finalized = True` (the constructor's first statement) has run. -/
structure ProtoEngine where
  finalized : Bool
deriving Repr, DecidableEq

/-- `Engine.__init__` (`core.py`, lines 135–156).  It first sets
`self._finalized = True`, then calls `_pymargo.init` — modelled by its
outcome `initOutcome` (a margo instance id, or the error the transport
raises) — and only on success sets `self._finalized = False`.  If the call
raises, the error propagates and only the partial object (with
`finalized = true`) exists. -/
def Engine.mk_ (s : TransportState) (initOutcome : Except PyError Nat) :
    Except (PyError × ProtoEngine) (Engine × TransportState) :=
  let proto : ProtoEngine := ⟨true⟩
  match initOutcome with
  | .error e => .error (e, proto)
  | .ok mid => .ok (⟨mid, false⟩, s)

/-- `Engine.finalize`: calls `_pymargo.finalize(self._mid)` then sets
`self._finalized = True`.  `fails` is whether the transport-level finalize
step fails. -/
def Engine.finalize (e : Engine) (s : TransportState) (fails : Bool) :
    Engine × TransportState :=
  let s' := pymargo_finalize e.mid s fails
  (⟨e.mid, true⟩, s')

/-- `Engine.wait_for_finalize`: calls `_pymargo.wait_for_finalize` then
sets `self._finalized = True`. -/
def Engine.wait_for_finalize (e : Engine) (s : TransportState) :
    Engine × TransportState :=
  let s' := pymargo_wait_for_finalize e.mid s
  (⟨e.mid, true⟩, s')

/-- `Engine.__del__`: `if not self._finalized: self.finalize()`. -/
def Engine.del (e : Engine) (s : TransportState) (fails : Bool) :
    Engine × TransportState :=
  if e.finalized then (e, s) else Engine.finalize e s fails

/-- Whether `Engine.__del__`'s body would call `self.finalize()` when run
on a partially constructed object (only `self._finalized` exists). -/
def ProtoEngine.delCallsFinalize (p : ProtoEngine) : Bool :=
  !p.finalized

/-- `Engine.register` (`core.py`, lines 224–242): both `obj` and
`method_name` omitted registers on the client side; both provided registers
a server-side handler; otherwise `RuntimeError` is raised.  The Python
object `obj` is represented by its identity (a number). -/
def Engine.register (e : Engine) (s : TransportState) (rpc_name : String)
    (obj : Option Nat) (method_name : Option String) (provider_id : Nat) :
    Except PyError (Nat × TransportState) :=
  match obj, method_name with
  | none, none => register_on_client e.mid s rpc_name provider_id
  | some o, some m => pymargo_register e.mid s rpc_name provider_id o m
  | _, _ =>
    .error (.runtimeError
      "Both method name and object instance should be provided")

/-- `Engine.registered` (`core.py`, lines 244–254): with no provider id it
calls `_pymargo.registered`, otherwise `_pymargo.registered_provider`. -/
def Engine.registered (e : Engine) (s : TransportState) (rpc_name : String)
    (provider_id : Option Nat) : Except PyError (Option Nat) :=
  match provider_id with
  | none => pymargo_registered e.mid s rpc_name
  | some pid => registered_provider e.mid s rpc_name pid

/-- `Engine.lookup`: `hg_addr = _pymargo.lookup(self._mid, straddr);
return Address(self._mid, hg_addr)` — the returned address is owned
(`need_del` defaults to `True`). -/
def Engine.lookup (e : Engine) (s : TransportState) (straddr : String) :
    Except PyError (Address × TransportState) :=
  match pymargo_lookup e.mid s straddr with
  | .error err => .error err
  | .ok (hg_addr, s') => .ok (⟨e.mid, hg_addr, true⟩, s')

/-- `Engine.addr`: `hg_addr = _pymargo.addr_self(self._mid);
return Address(self._mid, hg_addr)` — owned as well. -/
def Engine.addr (e : Engine) (s : TransportState) :
    Except PyError (Address × TransportState) :=
  match addr_self e.mid s with
  | .error err => .error err
  | .ok (hg_addr, s') => .ok (⟨e.mid, hg_addr, true⟩, s')

/-- `Engine.create_handle`: `h = _pymargo.create(self._mid, addr._hg_addr,
rpc_id); return h`. -/
def Engine.create_handle (e : Engine) (s : TransportState) (addr : Address)
    (rpc_id : Nat) : Except PyError (Handle × TransportState) :=
  match pymargo_create e.mid s addr.hg_addr rpc_id with
  | .error err => .error err
  | .ok ((mid, dest, rid), s') => .ok (⟨mid, dest, rid⟩, s')

/-- `pymargo.bulk.Bulk` as `core.py` uses it: built from the engine and the
transport bulk handle (`Bulk(self, blk)`); the engine is kept by its id. -/
structure Bulk where
  engine_mid : Nat
  hg_bulk : HgBulk
deriving Repr, DecidableEq

/-- `Engine.create_bulk`: `blk = _pymargo.bulk_create(self._mid, array,
mode); return Bulk(self, blk)`.  The array is abstracted by its size. -/
def Engine.create_bulk (e : Engine) (s : TransportState) (arraySize : Nat)
    (mode : BulkMode) : Except PyError (Bulk × TransportState) :=
  match bulk_create e.mid s arraySize mode with
  | .error err => .error err
  | .ok (blk, s') => .ok (⟨e.mid, blk⟩, s')

/-- `Engine.transfer`: delegates to `_pymargo.bulk_transfer` with the
fields of its `Address` and `Bulk` arguments. -/
def Engine.transfer (e : Engine) (s : TransportState) (op : BulkOp)
    (origin_addr : Address) (origin_handle : Bulk) (origin_offset : Nat)
    (local_handle : Bulk) (local_offset : Nat) (size : Nat) :
    Except PyError (Unit × TransportState) :=
  bulk_transfer e.mid s op origin_addr.hg_addr origin_handle.hg_bulk
    origin_offset local_handle.hg_bulk local_offset size

/-- `Engine.on_finalize`: `_pymargo.push_finalize_callback(self._mid,
callable_obj)`; the callback is identified by a number. -/
def Engine.on_finalize (e : Engine) (s : TransportState) (cb : Nat) :
    Except PyError TransportState :=
  push_finalize_callback e.mid s cb

/-- `pymargo.core.Provider` (`core.py`, lines 359–415): its constructor
stores `self._engine` and `self._provider_id`.  `selfObj` is the Python
identity of the provider instance itself (the `self` that
`Provider.register` passes as the handler object). -/
structure Provider where
  engine : Engine
  provider_id : Nat
  selfObj : Nat
deriving Repr, DecidableEq

/-- `Provider.register`: `return self._engine.register(rpc_name, self,
method_name, self._provider_id)`. -/
def Provider.register (p : Provider) (s : TransportState)
    (rpc_name : String) (method_name : String) :
    Except PyError (Nat × TransportState) :=
  Engine.register p.engine s rpc_name (some p.selfObj) (some method_name)
    p.provider_id

/-- `Provider.registered`: `return self._engine.registered(rpc_name,
self._provider_id)`. -/
def Provider.registered (p : Provider) (s : TransportState)
    (rpc_name : String) : Except PyError (Option Nat) :=
  Engine.registered p.engine s rpc_name (some p.provider_id)

/-- One non-destructive Engine operation, used to state lifecycle
invariants uniformly over the API of `core.py`. -/
inductive EngineOp where
  | opFinalize (fails : Bool)
  | opWaitForFinalize
  | opLookup (straddr : String)
  | opAddr
  | opRegister (name : String) (obj : Option Nat) (m : Option String)
      (pid : Nat)
  | opRegistered (name : String) (pid : Option Nat)
  | opCreateHandle (a : Address) (rid : Nat)
  | opCreateBulk (size : Nat) (mode : BulkMode)
  | opTransfer (op : BulkOp) (oa : Address) (ob : Bulk) (oo : Nat)
      (lb : Bulk) (lo : Nat) (size : Nat)
  | opOnFinalize (cb : Nat)
deriving Repr, DecidableEq

/-- Running one operation on an engine: the Python-side engine object and
transport state after the call (results and raised errors dropped; an
operation that raises leaves both unchanged, since the Python layer
mutates `self` only in `finalize` / `wait_for_finalize`). -/
def Engine.step (e : Engine) (s : TransportState) :
    EngineOp → Engine × TransportState
  | .opFinalize fails => Engine.finalize e s fails
  | .opWaitForFinalize => Engine.wait_for_finalize e s
  | .opLookup str =>
    match Engine.lookup e s str with
    | .ok (_, s') => (e, s')
    | .error _ => (e, s)
  | .opAddr =>
    match Engine.addr e s with
    | .ok (_, s') => (e, s')
    | .error _ => (e, s)
  | .opRegister name obj m pid =>
    match Engine.register e s name obj m pid with
    | .ok (_, s') => (e, s')
    | .error _ => (e, s)
  | .opRegistered name pid =>
    match Engine.registered e s name pid with
    | .ok _ => (e, s)
    | .error _ => (e, s)
  | .opCreateHandle a rid =>
    match Engine.create_handle e s a rid with
    | .ok (_, s') => (e, s')
    | .error _ => (e, s)
  | .opCreateBulk size mode =>
    match Engine.create_bulk e s size mode with
    | .ok (_, s') => (e, s')
    | .error _ => (e, s)
  | .opTransfer op oa ob oo lb lo size =>
    match Engine.transfer e s op oa ob oo lb lo size with
    | .ok (_, s') => (e, s')
    | .error _ => (e, s)
  | .opOnFinalize cb =>
    match Engine.on_finalize e s cb with
    | .ok s' => (e, s')
    | .error _ => (e, s)


/-- Whether an operation is one of the two lifecycle-ending calls —
`finalize` or `wait_for_finalize`, the only methods of `core.py` that set
`self._finalized = True`. -/
def EngineOp.endsLifecycle : EngineOp → Bool
  | .opFinalize _ => true
  | .opWaitForFinalize => true
  | _ => false

/-! ### Registry lemmas -/

/-- After `registerId`, looking up the registered pair yields the returned
id (either the pre-existing one or the freshly inserted one). -/
theorem lookupReg_registerId (s : TransportState) (name : String) (pid : Nat) :
    lookupReg (registerId s name pid).2.registry name pid
      = some (registerId s name pid).1 := by
  simp only [registerId]
  cases h : lookupReg s.registry name pid with
  | some i => simpa using h
  | none => simp [lookupReg]

/-- `registerId` does not disturb lookups of any other (name, providerId)
pair. -/
theorem lookupReg_registerId_other (s : TransportState) (name name' : String)
    (pid pid' : Nat) (h : ¬(name = name' ∧ pid = pid')) :
    lookupReg (registerId s name pid).2.registry name' pid'
      = lookupReg s.registry name' pid' := by
  simp only [registerId]
  cases hl : lookupReg s.registry name pid with
  | some i => simp
  | none => simp [lookupReg, h]

/-- `registerId` touches only the registry and the id counter. -/
theorem registerId_handlers (s : TransportState) (name : String) (pid : Nat) :
    (registerId s name pid).2.handlers = s.handlers := by
  simp only [registerId]
  cases h : lookupReg s.registry name pid <;> simp

/-- `registerId` leaves the lifecycle flag alone. -/
theorem registerId_sessionFinalized (s : TransportState) (name : String)
    (pid : Nat) :
    (registerId s name pid).2.sessionFinalized = s.sessionFinalized := by
  simp only [registerId]
  cases h : lookupReg s.registry name pid <;> simp

/-! ### Claim theorems -/

/-- Claim C1, counterexample to the claim as stated: when exactly one of
`obj` and `method_name` is provided, `Engine.register` raises Python's
builtin `RuntimeError`, not a `ConfigurationError`. -/
theorem C1_counterexample :
    Engine.register ⟨0, false⟩ initState "echo" none (some "handle") 0
      = .error (.runtimeError
          "Both method name and object instance should be provided")
    ∧ Engine.register ⟨0, false⟩ initState "echo" none (some "handle") 0
      ≠ .error .configurationError := by
  refine ⟨rfl, ?_⟩
  simp [Engine.register]

/-- Claim C1 (amended): in `Engine.register`, providing exactly one of
`obj` and `method_name` raises `RuntimeError` — Python's builtin, raised
by the pure-Python layer before any transport call, so nothing is
registered; providing neither registers a client-side-only RPC id (no
handler entry is added); providing both registers a server-side handler
bound to `(obj, method_name)` under `provider_id`. -/
theorem C1_register_argument_cases (e : Engine) (s : TransportState)
    (name : String) (pid : Nat) (hs : s.sessionFinalized = false) :
    (∀ m, Engine.register e s name none (some m) pid
        = .error (.runtimeError
            "Both method name and object instance should be provided"))
    ∧ (∀ o, Engine.register e s name (some o) none pid
        = .error (.runtimeError
            "Both method name and object instance should be provided"))
    ∧ (∃ i s', Engine.register e s name none none pid = .ok (i, s')
        ∧ lookupReg s'.registry name pid = some i
        ∧ s'.handlers = s.handlers)
    ∧ (∀ o m, ∃ i s', Engine.register e s name (some o) (some m) pid
          = .ok (i, s')
        ∧ lookupReg s'.registry name pid = some i
        ∧ (i, o, m) ∈ s'.handlers) := by
  refine ⟨fun m => rfl, fun o => rfl, ?_, ?_⟩
  · refine ⟨(registerId s name pid).1, (registerId s name pid).2,
      ?_, ?_, ?_⟩
    · simp [Engine.register, register_on_client, hs]
    · exact lookupReg_registerId s name pid
    · exact registerId_handlers s name pid
  · intro o m
    refine ⟨(registerId s name pid).1,
      { (registerId s name pid).2 with
          handlers := ((registerId s name pid).1, o, m) ::
            (registerId s name pid).2.handlers }, ?_, ?_, ?_⟩
    · simp [Engine.register, pymargo_register, hs]
    · simpa using lookupReg_registerId s name pid
    · simp

/-- Concrete instantiation of `C1_register_argument_cases`. -/
theorem C1_register_argument_cases_witness :
    Engine.register ⟨0, false⟩ initState "echo" none (some "handle") 0
      = .error (.runtimeError
          "Both method name and object instance should be provided") :=
  (C1_register_argument_cases ⟨0, false⟩ initState "echo" 0 rfl).1 "handle"

/-- Claim C4: `Engine.__init__` is atomic.  If the transport init step
raises, the error propagates and the only object left behind is the
partially constructed one whose `_finalized` flag was set to `True` before
the init call — so its destructor does not call `finalize` on a
never-created session.  On success a fully initialized, non-finalized
engine is returned. -/
theorem C4_init_atomic (s : TransportState) :
    (∀ err : PyError, Engine.mk_ s (.error err) = .error (err, ⟨true⟩))
    ∧ ProtoEngine.delCallsFinalize ⟨true⟩ = false
    ∧ (∀ mid : Nat, Engine.mk_ s (.ok mid) = .ok (⟨mid, false⟩, s)) :=
  ⟨fun _ => rfl, rfl, fun _ => rfl⟩

/-- Claim C7: `Address.__del__` releases the underlying endpoint reference
iff `need_del` is true; a borrowed address (`need_del = false`) is never
released — its destructor leaves the transport state untouched. -/
theorem C7_del_releases_iff_need_del (a : Address) (s : TransportState)
    (h : a.hg_addr.refId ∉ s.freedRefs) :
    (a.hg_addr.refId ∈ (Address.del a s).freedRefs ↔ a.need_del = true)
    ∧ (a.need_del = false → Address.del a s = s) := by
  constructor
  · cases hd : a.need_del <;> simp [Address.del, addr_free, hd, h]
  · intro hd
    simp [Address.del, hd]

/-- Concrete instantiation of `C7_del_releases_iff_need_del`. -/
theorem C7_witness :
    (((3 : Nat) ∈
        (Address.del ⟨0, ⟨.remote "x", 3⟩, true⟩ initState).freedRefs)
      ↔ (true : Bool) = true)
    ∧ ((true : Bool) = false →
        Address.del ⟨0, ⟨.remote "x", 3⟩, true⟩ initState = initState) :=
  C7_del_releases_iff_need_del ⟨0, ⟨.remote "x", 3⟩, true⟩ initState
    (by decide)

/-- Claim C8: `Provider.register` and `Provider.registered` are exactly
the delegations to the stored engine with the stored provider id attached
(`engine.register(name, self, methodName, providerId)` and
`engine.registered(name, providerId)`); the provider carries no state into
these calls beyond its (engine, provider id, self) fields. -/
theorem C8_provider_delegates (p : Provider) (s : TransportState)
    (rpc_name method_name : String) :
    Provider.register p s rpc_name method_name
      = Engine.register p.engine s rpc_name (some p.selfObj)
          (some method_name) p.provider_id
    ∧ Provider.registered p s rpc_name
      = Engine.registered p.engine s rpc_name (some p.provider_id) :=
  ⟨rfl, rfl⟩

/-- Claim C6: registering `(name, P)` (with a handler) returns an id `i`;
`registered` at provider id `P` then returns the same `i`, and the
`(name, Q)` namespace with `Q ≠ P` is untouched — in particular it still
reports `none` when nothing was registered there. -/
theorem C6_registered_after_register (e : Engine) (s : TransportState)
    (name : String) (o : Nat) (m : String) (P Q : Nat)
    (hs : s.sessionFinalized = false) (hQ : Q ≠ P) :
    ∃ i s', Engine.register e s name (some o) (some m) P = .ok (i, s')
      ∧ Engine.registered e s' name (some P) = .ok (some i)
      ∧ Engine.registered e s' name (some Q)
          = .ok (lookupReg s.registry name Q)
      ∧ (lookupReg s.registry name Q = none →
          Engine.registered e s' name (some Q) = .ok none) := by
  have hsf : (registerId s name P).2.sessionFinalized = false := by
    rw [registerId_sessionFinalized]
    exact hs
  have h3 : Engine.registered e
      { (registerId s name P).2 with
          handlers := ((registerId s name P).1, o, m) ::
            (registerId s name P).2.handlers } name (some Q)
      = .ok (lookupReg s.registry name Q) := by
    have hother := lookupReg_registerId_other s name name P Q
      (fun hc => hQ hc.2.symm)
    simp [Engine.registered, registered_provider, hsf, hother]
  refine ⟨(registerId s name P).1,
    { (registerId s name P).2 with
        handlers := ((registerId s name P).1, o, m) ::
          (registerId s name P).2.handlers },
    ?_, ?_, h3, fun hn => by rw [h3, hn]⟩
  · simp [Engine.register, pymargo_register, hs]
  · simp [Engine.registered, registered_provider, hsf, lookupReg_registerId]

/-- Concrete instantiation of `C6_registered_after_register`. -/
theorem C6_witness :
    ∃ i s', Engine.register ⟨0, false⟩ initState "echo" (some 1)
        (some "handle") 7 = .ok (i, s')
      ∧ Engine.registered ⟨0, false⟩ s' "echo" (some 7) = .ok (some i)
      ∧ Engine.registered ⟨0, false⟩ s' "echo" (some 0)
          = .ok (lookupReg initState.registry "echo" 0)
      ∧ (lookupReg initState.registry "echo" 0 = none →
          Engine.registered ⟨0, false⟩ s' "echo" (some 0) = .ok none) :=
  C6_registered_after_register ⟨0, false⟩ initState "echo" 1 "handle" 7 0
    rfl (by decide)

/-- Claim C5: an `Address` obtained from `Engine.lookup` or `Engine.addr`
compares equal — structural equality of the underlying endpoint — to its
`copy()`, and the copy is independently releasable: its `need_del` flag is
true and it holds a reference of its own (a distinct `refId`), so its
lifetime is independent of the original. -/
theorem C5_copy_equals_and_owned (e : Engine) (s : TransportState)
    (straddr : String) (hs : s.sessionFinalized = false) :
    (∃ a s₁, Engine.lookup e s straddr = .ok (a, s₁)
      ∧ Address.eq (Address.copy a s₁).1 a = true
      ∧ (Address.copy a s₁).1.need_del = true
      ∧ a.need_del = true
      ∧ (Address.copy a s₁).1.hg_addr.refId ≠ a.hg_addr.refId)
    ∧ (∃ a s₁, Engine.addr e s = .ok (a, s₁)
      ∧ Address.eq (Address.copy a s₁).1 a = true
      ∧ (Address.copy a s₁).1.need_del = true
      ∧ a.need_del = true
      ∧ (Address.copy a s₁).1.hg_addr.refId ≠ a.hg_addr.refId) := by
  constructor
  · refine ⟨⟨e.mid, ⟨.remote straddr, s.nextRef⟩, true⟩,
      { s with nextRef := s.nextRef + 1 }, ?_, ?_, rfl, rfl, ?_⟩
    · simp [Engine.lookup, pymargo_lookup, hs]
    · simp [Address.eq, Address.copy, addr_dup, addr_cmp]
    · simp [Address.copy, addr_dup]
  · refine ⟨⟨e.mid, ⟨.selfAddr e.mid, s.nextRef⟩, true⟩,
      { s with nextRef := s.nextRef + 1 }, ?_, ?_, rfl, rfl, ?_⟩
    · simp [Engine.addr, addr_self, hs]
    · simp [Address.eq, Address.copy, addr_dup, addr_cmp]
    · simp [Address.copy, addr_dup]

/-- Concrete instantiation of `C5_copy_equals_and_owned` (the `lookup`
half, projected out of the conjunction). -/
theorem C5_witness :
    ∃ a s₁, Engine.lookup ⟨0, false⟩ initState "tcp://x" = .ok (a, s₁)
      ∧ Address.eq (Address.copy a s₁).1 a = true
      ∧ (Address.copy a s₁).1.need_del = true
      ∧ a.need_del = true
      ∧ (Address.copy a s₁).1.hg_addr.refId ≠ a.hg_addr.refId :=
  (C5_copy_equals_and_owned ⟨0, false⟩ initState "tcp://x" rfl).1

/-- Claim C10: `Handle.get_addr` (the installed `__Handler_get_Address`)
returns an owned duplicate of the borrowed sender address: the result has
`need_del = true`, it refers to the sender's endpoint through a fresh
reference of its own, destroying the temporary borrowed wrapper
(`need_del = False`) frees nothing, and destroying the returned address
frees its own duplicated reference. -/
theorem C10_get_addr_owned_duplicate (h : Handle) (s : TransportState)
    (hfresh : h.hg_addr.refId < s.nextRef) :
    ((Handler_get_Address h s).1.need_del = true)
    ∧ (Handler_get_Address h s).1.hg_addr.endpoint = h.hg_addr.endpoint
    ∧ (Handler_get_Address h s).1.hg_addr.refId ≠ h.hg_addr.refId
    ∧ Address.del ⟨h.mid, h.hg_addr, false⟩ (Handler_get_Address h s).2
        = (Handler_get_Address h s).2
    ∧ (Handler_get_Address h s).1.hg_addr.refId
        ∈ (Address.del (Handler_get_Address h s).1
            (Handler_get_Address h s).2).freedRefs := by
  refine ⟨rfl, rfl, ?_, ?_, ?_⟩
  · simp only [Handler_get_Address, Address.copy, addr_dup]
    omega
  · simp [Address.del]
  · simp [Handler_get_Address, Address.copy, addr_dup, Address.del,
      addr_free]

/-- Concrete instantiation of `C10_get_addr_owned_duplicate`.  The handle
carries the borrowed sender reference `0`; the transport has one live
reference, so `nextRef = 1`. -/
theorem C10_witness :
    ((Handler_get_Address ⟨0, ⟨.remote "sender", 0⟩, 5⟩
        { initState with nextRef := 1 }).1.need_del = true)
    ∧ (Handler_get_Address ⟨0, ⟨.remote "sender", 0⟩, 5⟩
        { initState with nextRef := 1 }).1.hg_addr.endpoint
          = (HgAddr.mk (.remote "sender") 0).endpoint
    ∧ (Handler_get_Address ⟨0, ⟨.remote "sender", 0⟩, 5⟩
        { initState with nextRef := 1 }).1.hg_addr.refId
          ≠ (HgAddr.mk (.remote "sender") 0).refId
    ∧ Address.del ⟨0, ⟨.remote "sender", 0⟩, false⟩
        (Handler_get_Address ⟨0, ⟨.remote "sender", 0⟩, 5⟩
          { initState with nextRef := 1 }).2
        = (Handler_get_Address ⟨0, ⟨.remote "sender", 0⟩, 5⟩
            { initState with nextRef := 1 }).2
    ∧ (Handler_get_Address ⟨0, ⟨.remote "sender", 0⟩, 5⟩
        { initState with nextRef := 1 }).1.hg_addr.refId
        ∈ (Address.del
            (Handler_get_Address ⟨0, ⟨.remote "sender", 0⟩, 5⟩
              { initState with nextRef := 1 }).1
            (Handler_get_Address ⟨0, ⟨.remote "sender", 0⟩, 5⟩
              { initState with nextRef := 1 }).2).freedRefs :=
  C10_get_addr_owned_duplicate ⟨0, ⟨.remote "sender", 0⟩, 5⟩
    { initState with nextRef := 1 } (by decide)

/-- Claim C3: when the transport-level finalize step fails,
`Engine.finalize` still leaves the session released, records exactly one
warning-level diagnostic, and the engine ends finalized; nothing is
re-raised to the caller — `Engine.finalize` is a total function into
`Engine × TransportState`, it has no error outcome. -/
theorem C3_finalize_failure_swallowed (e : Engine) (s : TransportState) :
    ((Engine.finalize e s true).2.sessionReleased = true)
    ∧ (Engine.finalize e s true).2.sessionFinalized = true
    ∧ (Engine.finalize e s true).2.warnings = s.warnings + 1
    ∧ (Engine.finalize e s true).1.finalized = true := by
  refine ⟨rfl, rfl, ?_, rfl⟩
  simp [Engine.finalize, pymargo_finalize]

/-- Claim C2: once `Engine.finalize` has returned, every non-destructive
engine operation of `core.py` — `register` (either well-formed argument
shape), `registered` (with or without a provider id), `lookup`, `addr`,
`create_handle`, `create_bulk`, `transfer`, `on_finalize` — fails with the
lifecycle error instead of proceeding. -/
theorem C2_ops_after_finalize_fail (e e' : Engine) (s s' : TransportState)
    (fails : Bool) (hfin : Engine.finalize e s fails = (e', s')) :
    (∀ name pid, Engine.register e' s' name none none pid
        = .error .lifecycleError)
    ∧ (∀ name o m pid, Engine.register e' s' name (some o) (some m) pid
        = .error .lifecycleError)
    ∧ (∀ name pid, Engine.registered e' s' name pid
        = .error .lifecycleError)
    ∧ (∀ straddr, Engine.lookup e' s' straddr = .error .lifecycleError)
    ∧ Engine.addr e' s' = .error .lifecycleError
    ∧ (∀ a rid, Engine.create_handle e' s' a rid = .error .lifecycleError)
    ∧ (∀ n mode, Engine.create_bulk e' s' n mode = .error .lifecycleError)
    ∧ (∀ op oa ob oo lb lo sz,
        Engine.transfer e' s' op oa ob oo lb lo sz
          = .error .lifecycleError)
    ∧ (∀ cb, Engine.on_finalize e' s' cb = .error .lifecycleError) := by
  have hs' : s'.sessionFinalized = true := by
    have h2 := congrArg Prod.snd hfin
    simp only [Engine.finalize] at h2
    rw [← h2]
    rfl
  refine ⟨?_, ?_, ?_, ?_, ?_, ?_, ?_, ?_, ?_⟩
  · intro name pid
    simp [Engine.register, register_on_client, hs']
  · intro name o m pid
    simp [Engine.register, pymargo_register, hs']
  · intro name pid
    cases pid <;>
      simp [Engine.registered, pymargo_registered, registered_provider,
        hs']
  · intro straddr
    simp [Engine.lookup, pymargo_lookup, hs']
  · simp [Engine.addr, addr_self, hs']
  · intro a rid
    simp [Engine.create_handle, pymargo_create, hs']
  · intro n mode
    simp [Engine.create_bulk, bulk_create, hs']
  · intro op oa ob oo lb lo sz
    simp [Engine.transfer, bulk_transfer, hs']
  · intro cb
    simp [Engine.on_finalize, push_finalize_callback, hs']

/-- Concrete instantiation of `C2_ops_after_finalize_fail`: `lookup` on a
freshly finalized engine fails with the lifecycle error. -/
theorem C2_witness :
    Engine.lookup ⟨0, true⟩ (pymargo_finalize 0 initState false) "tcp://x"
      = .error .lifecycleError :=
  (C2_ops_after_finalize_fail ⟨0, false⟩ ⟨0, true⟩ initState
    (pymargo_finalize 0 initState false) false rfl).2.2.2.1 "tcp://x"

/-- Claim C9: the `_finalized` flag is false after successful
construction, each API call leaves it at `e.finalized || endsLifecycle`,
so it never falls back from true to false, it becomes true only through
`finalize` / `wait_for_finalize`, and after either of those (in
particular when `wait_for_finalize` returns) it is true. -/
theorem C9_finalized_monotone :
    (∀ (s : TransportState) (mid : Nat),
      Engine.mk_ s (.ok mid) = .ok (⟨mid, false⟩, s))
    ∧ (∀ (e : Engine) (s : TransportState) (op : EngineOp),
        e.finalized = true → (Engine.step e s op).1.finalized = true)
    ∧ (∀ (e : Engine) (s : TransportState) (op : EngineOp),
        (Engine.step e s op).1.finalized = true →
          e.finalized = true ∨ op.endsLifecycle = true)
    ∧ (∀ (e : Engine) (s : TransportState) (op : EngineOp),
        op.endsLifecycle = true →
          (Engine.step e s op).1.finalized = true) := by
  have hstep : ∀ (e : Engine) (s : TransportState) (op : EngineOp),
      (Engine.step e s op).1.finalized
        = (e.finalized || op.endsLifecycle) := by
    intro e s op
    cases op <;>
      simp only [Engine.step, Engine.finalize, Engine.wait_for_finalize,
        EngineOp.endsLifecycle] <;>
      first
      | (split <;> simp)
      | simp
  refine ⟨fun s mid => rfl, ?_, ?_, ?_⟩
  · intro e s op he
    rw [hstep, he, Bool.true_or]
  · intro e s op h
    rw [hstep] at h
    exact Bool.or_eq_true_iff.mp h
  · intro e s op h
    rw [hstep, h, Bool.or_true]

/-- Concrete instantiation of `C9_finalized_monotone`: a finalized engine
stays finalized across a `lookup` call. -/
theorem C9_witness :
    (Engine.step ⟨0, true⟩ initState (.opLookup "tcp://x")).1.finalized
      = true :=
  C9_finalized_monotone.2.1 ⟨0, true⟩ initState (.opLookup "tcp://x") rfl

end Pymargo
